import Mathlib

/-!
Verification development for the AI resume evaluation system.

The repository source under study is the React frontend (DashboardPage,
ResultPage, UploadPage, the api client and the StatusIndicator component)
together with the project README.  The backend pipeline (candidate state
machine, extraction chain, upload handler, re-evaluation endpoint) is not
part of the available sources; those parts are modelled from the
specification, and each such definition is marked `Modelled from the spec:`
in its doc comment.
-/

namespace ResumeAI

/-- Candidate lifecycle status.  Modelled from the spec: `status` is one of
`PENDING`, `PROCESSING`, `DONE`, `FAILED` (spec §3, §4.4), represented as a
closed tagged variant as the design notes prescribe. -/
inductive Status where
  | PENDING
  | PROCESSING
  | DONE
  | FAILED
deriving DecidableEq, Repr

/-- String form of a status, as it appears on the wire and in the frontend
(`candidate.status` in DashboardPage / ResultPage). -/
def statusString : Status → String
  | .PENDING => "PENDING"
  | .PROCESSING => "PROCESSING"
  | .DONE => "DONE"
  | .FAILED => "FAILED"

/-- Structured data parsed from a resume: `{name, email, phone, skills[]}`,
all fields optional (spec §3; rendered by ResultPage part_000:244-269). -/
structure StructuredData where
  name : Option String
  email : Option String
  phone : Option String
  skills : List String
deriving DecidableEq, Repr

/-- Modelled from the spec: the Candidate record of spec §3 (the backend
database row is not in the available sources).  `fit_score` is kept as a
rational number. -/
structure Candidate where
  id : String
  original_filename : String
  stored_path : String
  status : Status
  attempt_count : Nat
  raw_text : Option String
  structured_data : Option StructuredData
  fit_score : Option ℚ
  recommendation : Option String
  summary_text : Option String
deriving DecidableEq, Repr

/-- The result read exposed to collaborators:
`{id, status, fit_score, recommendation, summary_text, raw_text,
structured_data}` (spec §6; consumed by ResultPage). -/
structure CandidateResult where
  id : String
  status : String
  fit_score : Option ℚ
  recommendation : Option String
  summary_text : Option String
  raw_text : Option String
  structured_data : Option StructuredData
deriving DecidableEq, Repr

/-- The result read for a candidate record (spec §6 field-for-field). -/
def candidateResult (c : Candidate) : CandidateResult :=
  { id := c.id
    status := statusString c.status
    fit_score := c.fit_score
    recommendation := c.recommendation
    summary_text := c.summary_text
    raw_text := c.raw_text
    structured_data := c.structured_data }

/-! ## StatusIndicator component (src/unnamed/part_001) -/

/-- `getStatusClass` from StatusIndicator (part_001:5-18): a `switch` on the
raw status string, defaulting to `status-unknown`. -/
def getStatusClass (status : String) : String :=
  if status = "PENDING" then "status-pending"
  else if status = "PROCESSING" then "status-processing"
  else if status = "DONE" then "status-done"
  else if status = "FAILED" then "status-failed"
  else "status-unknown"

/-- `getStatusLabel` from StatusIndicator (part_001:20-33): a `switch` on the
raw status string, defaulting to the raw value itself. -/
def getStatusLabel (status : String) : String :=
  if status = "PENDING" then "Pending"
  else if status = "PROCESSING" then "Processing"
  else if status = "DONE" then "Done"
  else if status = "FAILED" then "Failed"
  else status

/-! ## DashboardPage (src/unnamed/part_000:7-133) -/

/-- A row of the candidate list as the dashboard consumes it. -/
structure CandidateRow where
  id : String
  status : String
deriving DecidableEq, Repr

/-- One increment of the counts object: `counts[c.status] = (counts[c.status]
|| 0) + 1` (part_000:46).  Counts are modelled as a total function from
status strings to numbers; keys the JS object does not hold are the
positions where the function is still zero. -/
def bumpCount (counts : String → Nat) (s : String) : String → Nat :=
  fun t => if t = s then counts s + 1 else counts t

/-- `getStatusCounts` from DashboardPage (part_000:38-49): starts from the
all-zero counts (the four explicit keys are initialised to 0; `|| 0` makes
any other key behave as 0) and bumps the key `c.status` once per candidate. -/
def getStatusCounts (candidates : List CandidateRow) : String → Nat :=
  candidates.foldl (fun counts c => bumpCount counts c.status) (fun _ => 0)

/-- The `disabled` condition of the dashboard's View button
(part_000:118): `candidate.status === 'PENDING' || candidate.status ===
'PROCESSING'`. -/
def viewDisabled (status : String) : Bool :=
  status == "PENDING" || status == "PROCESSING"

/-! ## UploadPage (src/unnamed/part_000:292-440) -/

/-- A selected file as seen by the upload page (only the name matters to the
validation logic). -/
structure FileInfo where
  name : String
deriving DecidableEq, Repr

/-- The component state `handleFileChange` reads and writes: the `files`
list and the `error` message. -/
structure UploadState where
  files : List FileInfo
  error : Option String
deriving DecidableEq, Repr

/-- JS `file.name.toLowerCase()` (part_000:318): lowercase every
character.  Written over the character data (`String.toLower` maps
`Char.toLower` over the string in exactly this way) so concrete instances
reduce. -/
def toLowerName (s : String) : String := ⟨s.data.map Char.toLower⟩

/-- JS `.endsWith('.pdf')` (part_000:318): the characters `.pdf` are a
suffix of the name. -/
def endsWithPdf (s : String) : Bool := ".pdf".data.isSuffixOf s.data

/-- `handleFileChange` from UploadPage (part_000:308-326): rejects
selections of more than 10 files, then selections holding a file whose
lowercased name does not end in `.pdf`; on either rejection it sets the
error and returns early (leaving `files` unchanged); otherwise it stores
the selection and clears the error. -/
def handleFileChange (st : UploadState) (selectedFiles : List FileInfo) : UploadState :=
  if selectedFiles.length > 10 then
    { st with error := some "Maximum 10 files allowed" }
  else
    let invalidFiles := selectedFiles.filter (fun f => !(endsWithPdf (toLowerName f.name)))
    if invalidFiles.length > 0 then
      { st with error := some "Only PDF files are allowed" }
    else
      { files := selectedFiles, error := none }

/-! ## api client (src/unnamed/part_000:442-492) -/

/-- The multipart form body built by `uploadResumes` (part_000:453-457):
`files.forEach((file) => formData.append('files', file))` — every selected
file appended under the `files` field. -/
def uploadFormData (files : List FileInfo) : List (String × FileInfo) :=
  files.map (fun f => ("files", f))

/-! ## ResultPage rendering (src/unnamed/part_000:141-285)

The JSX tree is modelled by the data it commits to the screen.  Number
formatting (`toFixed(1)`) is abstracted: a rendered score is the rational
value shown, a missing score is the literal `N/A`. -/

/-- What the fit-score card shows (part_000:218-220): the score when
non-null, otherwise the text `N/A`. -/
inductive ScoreDisplay where
  | score (v : ℚ)
  | na
deriving DecidableEq, Repr

/-- What a textual field shows: the text, or the `N/A` fallback. -/
inductive TextDisplay where
  | text (s : String)
  | na
deriving DecidableEq, Repr

/-- The fit-score card (part_000:218-220): `result.fit_score !== null &&
result.fit_score !== undefined ? result.fit_score.toFixed(1) : 'N/A'`. -/
def renderFitScore : Option ℚ → ScoreDisplay
  | some v => .score v
  | none => .na

/-- The recommendation card (part_000:228): `result.recommendation ||
'N/A'` — JS `||` also maps the empty string to the fallback. -/
def renderRecommendation : Option String → TextDisplay
  | some r => if r = "" then .na else .text r
  | none => .na

/-- A conditionally rendered section (part_000:233, 271):
`{result.summary_text && (...)}` — rendered only when the value is truthy,
so a null or empty string omits the section. -/
def renderSection : Option String → Option String
  | some s => if s = "" then none else some s
  | none => none

/-- The three mutually exclusive bodies of the result page
(part_000:202-280). -/
inductive ResultView where
  | processingMessage
  | failedNotice (title message : String)
  | content (fitScore : ScoreDisplay) (recommendation : TextDisplay)
      (summarySection : Option String) (structuredSection : Option StructuredData)
      (rawSection : Option String)
deriving DecidableEq, Repr

/-- The ResultPage body (part_000:202-280): `PENDING`/`PROCESSING` show the
processing message, `FAILED` shows the fixed failure notice, and every
other status falls through to the result content. -/
def renderResultPage (r : CandidateResult) : ResultView :=
  if r.status = "PENDING" ∨ r.status = "PROCESSING" then
    .processingMessage
  else if r.status = "FAILED" then
    .failedNotice "Processing Failed"
      "There was an error processing this candidate\x27s resume."
  else
    .content (renderFitScore r.fit_score) (renderRecommendation r.recommendation)
      (renderSection r.summary_text) r.structured_data (renderSection r.raw_text)

/-! ## Candidate state machine

Modelled from the spec: the backend Job Runner, Status Store and
re-evaluation endpoint are not in the available sources, so the state
machine of spec §4.4 (with the invariants of §3 and the interface contract
of §6) is embedded here as a step relation on Candidate records. -/

/-- Modelled from the spec: the initial record the upload collaborator
creates — `status=PENDING`, no attempts yet, every result field null
(spec §3 lifecycle, §6). -/
def initialCandidate (id filename path : String) : Candidate :=
  { id := id
    original_filename := filename
    stored_path := path
    status := .PENDING
    attempt_count := 0
    raw_text := none
    structured_data := none
    fit_score := none
    recommendation := none
    summary_text := none }

/-- Modelled from the spec: the reset performed by a re-evaluation —
back to `PENDING`, prior results cleared, attempt counting restarted for a
fresh cycle, identity and stored PDF untouched (spec §4.4, §6, §8). -/
def clearResults (c : Candidate) : Candidate :=
  { c with
    status := .PENDING
    attempt_count := 0
    raw_text := none
    structured_data := none
    fit_score := none
    recommendation := none
    summary_text := none }

/-- Modelled from the spec: the re-evaluation trigger — accepts a
candidate, valid only if not currently `PROCESSING`; resets to `PENDING`
and re-enqueues (the `Bool` records that a job was enqueued) (spec §6). -/
def reEvaluate (c : Candidate) : Option (Candidate × Bool) :=
  if c.status = .PROCESSING then none
  else some (clearResults c, true)

/-- Modelled from the spec: the transitions of spec §4.4.  `limit` is the
configured maximum retry limit.  Job pickup moves `PENDING` to
`PROCESSING` and increments `attempt_count`; a retryable failure below the
limit requeues (a further attempt, still externally `PROCESSING`); success
populates every result field atomically with a validated score; a failure
that is non-retryable or at the limit is terminal; re-evaluation applies
`clearResults` whenever the candidate is not `PROCESSING`. -/
inductive Step (limit : Nat) : Candidate → Candidate → Prop where
  | pickup (c : Candidate) :
      c.status = .PENDING →
      Step limit c { c with status := .PROCESSING, attempt_count := c.attempt_count + 1 }
  | retry (c : Candidate) :
      c.status = .PROCESSING →
      c.attempt_count < limit →
      Step limit c { c with attempt_count := c.attempt_count + 1 }
  | complete (c : Candidate) (score : ℚ) (rec summ raw : String) (sd : StructuredData) :
      c.status = .PROCESSING →
      1 ≤ score → score ≤ 10 →
      rec ≠ "" → summ ≠ "" →
      Step limit c
        { c with
          status := .DONE
          fit_score := some score
          recommendation := some rec
          summary_text := some summ
          raw_text := some raw
          structured_data := some sd }
  | fail (c : Candidate) (retryable : Bool) :
      c.status = .PROCESSING →
      (retryable = false ∨ limit ≤ c.attempt_count) →
      Step limit c { c with status := .FAILED }
  | reevaluate (c : Candidate) :
      c.status ≠ .PROCESSING →
      Step limit c (clearResults c)

/-- Candidate states reachable from an initial upload through the state
machine. -/
inductive Reachable (limit : Nat) : Candidate → Prop where
  | init (id filename path : String) : Reachable limit (initialCandidate id filename path)
  | step {c c' : Candidate} : Reachable limit c → Step limit c c' → Reachable limit c'

/-- All result fields populated (spec §6: the result read is fully
populated iff `status=DONE`). -/
def ResultPopulated (c : Candidate) : Prop :=
  c.fit_score ≠ none ∧ c.recommendation ≠ none ∧ c.summary_text ≠ none ∧
    c.raw_text ≠ none ∧ c.structured_data ≠ none

instance (c : Candidate) : Decidable (ResultPopulated c) := by
  unfold ResultPopulated; infer_instance

/-- All result fields null (spec §6: entirely null result fields iff not
yet `DONE`). -/
def ResultNull (c : Candidate) : Prop :=
  c.fit_score = none ∧ c.recommendation = none ∧ c.summary_text = none ∧
    c.raw_text = none ∧ c.structured_data = none

instance (c : Candidate) : Decidable (ResultNull c) := by
  unfold ResultNull; infer_instance

/-- A stored fit score lies in the range [1,10] (spec §3, §4.3). -/
def ScoreInRange (c : Candidate) : Prop :=
  ∀ q : ℚ, c.fit_score = some q → 1 ≤ q ∧ q ≤ 10

/-- The part of the state-machine invariant that holds for any retry
limit: result fields track the status, stored scores are validated, and
`attempt_count` is zero exactly while `PENDING`. -/
def InvBasic (c : Candidate) : Prop :=
  (c.status = .DONE → ResultPopulated c) ∧
  (c.status ≠ .DONE → ResultNull c) ∧
  ScoreInRange c ∧
  (c.status = .PENDING → c.attempt_count = 0) ∧
  (c.status ≠ .PENDING → 1 ≤ c.attempt_count)

/-- Every reachable candidate state satisfies the basic invariant. -/
theorem reachable_invBasic {limit : Nat} {c : Candidate}
    (hc : Reachable limit c) : InvBasic c := by
  induction hc with
  | init id filename path =>
    refine ⟨?_, ?_, ?_, ?_, ?_⟩ <;>
      simp [initialCandidate, ResultPopulated, ResultNull, ScoreInRange]
  | step hr hs ih =>
    obtain ⟨hdone, hnotdone, hrange, hpend, hnotpend⟩ := ih
    cases hs with
    | pickup h =>
      refine ⟨?_, ?_, ?_, ?_, ?_⟩ <;>
        simp_all [ResultPopulated, ResultNull, ScoreInRange]
    | retry h hlt =>
      refine ⟨?_, ?_, ?_, ?_, ?_⟩ <;>
        simp_all [ResultPopulated, ResultNull, ScoreInRange]
    | complete score rec summ raw sd h h1 h10 hrec hsumm =>
      refine ⟨?_, ?_, ?_, ?_, ?_⟩ <;>
        simp_all [ResultPopulated, ResultNull, ScoreInRange]
    | fail retryable h hguard =>
      refine ⟨?_, ?_, ?_, ?_, ?_⟩ <;>
        simp_all [ResultPopulated, ResultNull, ScoreInRange]
    | reevaluate h =>
      refine ⟨?_, ?_, ?_, ?_, ?_⟩ <;>
        simp_all [clearResults, ResultPopulated, ResultNull, ScoreInRange]

/-- Provided the configured retry limit allows at least one attempt, no
reachable state exceeds it. -/
theorem reachable_count_le {limit : Nat} (hl : 1 ≤ limit) {c : Candidate}
    (hc : Reachable limit c) : c.attempt_count ≤ limit := by
  induction hc with
  | init id filename path => simp [initialCandidate]
  | step hr hs ih =>
    have hb := reachable_invBasic hr
    cases hs with
    | pickup h =>
      have h0 := hb.2.2.2.1 h
      simp only []
      omega
    | retry h hlt => simpa using hlt
    | complete score rec summ raw sd h h1 h10 hrec hsumm => simpa using ih
    | fail retryable h hguard => simpa using ih
    | reevaluate h => simp [clearResults]

/-! ## Job runner retry loop

Modelled from the spec: the Celery-driven retry behaviour (README
"Reliability Features", spec §4.4 failure semantics) as an executable
attempt loop driven by the outcome of each attempt. -/

/-- Modelled from the spec: the outcome of one processing attempt — success
with validated results, a retryable failure (e.g. an evaluator timeout), or
a non-retryable failure (spec §4.3, §4.4). -/
inductive AttemptOutcome where
  | success (score : ℚ) (rec summ raw : String) (sd : StructuredData)
  | retryableFailure
  | fatalFailure
deriving DecidableEq, Repr

/-- Start of an attempt: `PENDING → PROCESSING` (or a requeued retry),
incrementing `attempt_count` (spec §4.4). -/
def beginAttempt (c : Candidate) : Candidate :=
  { c with status := .PROCESSING, attempt_count := c.attempt_count + 1 }

/-- Terminal success: all result fields populated atomically (spec §4.4). -/
def markDone (c : Candidate) (score : ℚ) (rec summ raw : String)
    (sd : StructuredData) : Candidate :=
  { c with
    status := .DONE
    fit_score := some score
    recommendation := some rec
    summary_text := some summ
    raw_text := some raw
    structured_data := some sd }

/-- Terminal failure: result fields untouched (null), status `FAILED`
(spec §4.4, §7). -/
def markFailed (c : Candidate) : Candidate :=
  { c with status := .FAILED }

/-- Modelled from the spec: the bounded attempt loop.  `outcome n` is what
attempt number `n` produces; a retryable failure below the retry limit
requeues, one at the limit is terminal (spec §4.4; README: max 3
retries). -/
def runJobAux (limit : Nat) (outcome : Nat → AttemptOutcome) :
    Nat → Candidate → Candidate
  | 0, c => c
  | fuel + 1, c =>
    let c1 := beginAttempt c
    match outcome c1.attempt_count with
    | .success score rec summ raw sd => markDone c1 score rec summ raw sd
    | .retryableFailure =>
      if c1.attempt_count < limit then runJobAux limit outcome fuel c1
      else markFailed c1
    | .fatalFailure => markFailed c1

/-- Modelled from the spec: run a freshly enqueued job to its terminal
state; the fuel `limit` suffices because every attempt increments
`attempt_count` and the loop stops at the limit. -/
def runJob (limit : Nat) (outcome : Nat → AttemptOutcome) (c : Candidate) : Candidate :=
  runJobAux limit outcome limit c

/-- An evaluator that times out on every attempt: each attempt is a
retryable failure (spec §8 end-to-end scenario). -/
def alwaysTimeout : Nat → AttemptOutcome := fun _ => .retryableFailure

/-- Under the always-timing-out evaluator, the attempt loop exhausts
exactly the remaining attempts and fails at the limit. -/
theorem runJobAux_timeout (limit : Nat) (fuel : Nat) :
    ∀ c : Candidate, c.attempt_count + fuel = limit → 1 ≤ fuel →
      (runJobAux limit alwaysTimeout fuel c).status = .FAILED ∧
      (runJobAux limit alwaysTimeout fuel c).attempt_count = limit := by
  induction fuel with
  | zero => intro c _ h; omega
  | succ n ih =>
    intro c hsum _
    by_cases hn : n = 0
    · subst hn
      have hc : ¬ c.attempt_count + 1 < limit := by omega
      simp [runJobAux, alwaysTimeout, beginAttempt, markFailed, hc]
      omega
    · have hc : c.attempt_count + 1 < limit := by omega
      have := ih (beginAttempt c) (by simp [beginAttempt]; omega) (by omega)
      simpa [runJobAux, alwaysTimeout, beginAttempt, hc] using this

/-! ## Extraction chain

Modelled from the spec: the backend extraction chain (spec §4.1; README
"PyMuPDF → pdfminer → OCR") is not in the available sources.  The chain is
embedded over the outcomes of its three strategies: `none` is a parse
error, `some t` is extracted text `t`. -/

/-- The three extraction strategies, in their fixed order (spec §4.1). -/
inductive ExtractionMethod where
  | structuredText
  | secondaryText
  | ocr
deriving DecidableEq, Repr

/-- Modelled from the spec: `ExtractionFailed` carries the per-strategy
failure reasons for diagnostics (spec §4.1); here, the three raw
outcomes. -/
structure ExtractionFailed where
  structuredTextOutcome : Option String
  secondaryTextOutcome : Option String
  ocrOutcome : Option String
deriving DecidableEq, Repr

/-- Modelled from the spec: a strategy outcome is acceptable when it
produced text whose length exceeds the acceptability threshold; an error
or below-threshold text is not (spec §4.1). -/
def acceptableText (threshold : Nat) : Option String → Bool
  | some t => threshold < t.length
  | none => false

/-- Modelled from the spec: the ordered fallback chain — accept the first
strategy whose output is acceptable, in the fixed order structured-text,
secondary text-layer, OCR; if none is acceptable, fail with
`ExtractionFailed` carrying all three outcomes (spec §4.1). -/
def extractChain (threshold : Nat) (r1 r2 r3 : Option String) :
    Except ExtractionFailed (String × ExtractionMethod) :=
  if acceptableText threshold r1 then .ok (r1.getD "", .structuredText)
  else if acceptableText threshold r2 then .ok (r2.getD "", .secondaryText)
  else if acceptableText threshold r3 then .ok (r3.getD "", .ocr)
  else .error ⟨r1, r2, r3⟩

/-! ## Upload (api client part_000:453-465; backend modelled) -/

/-- One entry of the upload response (README `POST /api/candidates/upload`:
`{id, filename, status}`). -/
structure UploadCandidate where
  id : String
  filename : String
  status : String
deriving DecidableEq, Repr

/-- The upload response (README: a message plus one candidate entry per
uploaded file). -/
structure UploadResponse where
  message : String
  candidates : List UploadCandidate
deriving DecidableEq, Repr

/-- Modelled from the spec: the backend upload handler — for each accepted
file it creates exactly one initial `PENDING` Candidate record (spec §3,
§6; README `POST /api/candidates/upload`) and reports it in the response.
`gen` generates the opaque ids, `storeDir` the per-candidate storage
prefix. -/
def uploadBackend (gen : Nat → String) (storeDir : String)
    (files : List FileInfo) : List Candidate × UploadResponse :=
  let recs := (List.zip (List.range files.length) files).map
    (fun p => initialCandidate (gen p.1) p.2.name (storeDir ++ gen p.1))
  (recs,
    { message := "Uploaded " ++ toString files.length ++ " resume(s)"
      candidates := recs.map
        (fun c => { id := c.id, filename := c.original_filename, status := statusString c.status }) })

/-! ## Helper lemmas and demonstration states -/

/-- Unfolding `getStatusCounts` one candidate at a time: the count at any
key is the accumulator value plus the number of candidates carrying that
status. -/
theorem foldl_bumpCount (cs : List CandidateRow) (acc : String → Nat) (s : String) :
    (cs.foldl (fun counts c => bumpCount counts c.status) acc) s
      = acc s + cs.countP (fun c => c.status == s) := by
  induction cs generalizing acc with
  | nil => simp
  | cons c cs ih =>
    rw [List.foldl_cons, ih, List.countP_cons]
    by_cases h : s = c.status
    · subst h; simp [bumpCount]; omega
    · have hb : (c.status == s) = false := by
        simp [BEq.beq]
        exact fun he => h he.symm
      simp [bumpCount, h, hb]

/-- Each key of `getStatusCounts` counts the candidates carrying exactly
that status. -/
theorem getStatusCounts_eq_countP (cs : List CandidateRow) (s : String) :
    getStatusCounts cs s = cs.countP (fun c => c.status == s) := by
  simpa [getStatusCounts] using foldl_bumpCount cs (fun _ => 0) s

/-- When every status lies among the four lifecycle values, the four counts
partition the list. -/
theorem countP_four_statuses (cs : List CandidateRow)
    (h : ∀ c ∈ cs, c.status = "PENDING" ∨ c.status = "PROCESSING" ∨
      c.status = "DONE" ∨ c.status = "FAILED") :
    cs.countP (fun c => c.status == "PENDING") +
      cs.countP (fun c => c.status == "PROCESSING") +
      cs.countP (fun c => c.status == "DONE") +
      cs.countP (fun c => c.status == "FAILED") = cs.length := by
  induction cs with
  | nil => simp
  | cons c cs ih =>
    have hc := h c (List.mem_cons_self c cs)
    have ih := ih (fun x hx => h x (List.mem_cons_of_mem c hx))
    simp only [List.countP_cons, List.length_cons]
    rcases hc with h1 | h1 | h1 | h1 <;> simp [h1] <;> omega

/-- A demonstration dashboard row list mixing the four statuses. -/
def demoRows : List CandidateRow :=
  [⟨"a", "PENDING"⟩, ⟨"b", "DONE"⟩, ⟨"c", "DONE"⟩, ⟨"d", "FAILED"⟩]

/-- A demonstration structured record. -/
def demoSD : StructuredData :=
  { name := some "John Doe"
    email := some "john@x.com"
    phone := some "555-1234"
    skills := ["Python", "SQL"] }

/-- The state after upload of one resume. -/
def demoUploaded : Candidate := initialCandidate "c1" "r.pdf" "/storage/candidates/c1"

/-- The state after job pickup. -/
def demoProcessing : Candidate := beginAttempt demoUploaded

/-- A completed evaluation. -/
def demoDone : Candidate :=
  markDone demoProcessing 8 "Interview" "Strong candidate." "resume text" demoSD

/-- A terminally failed candidate. -/
def demoFailed : Candidate := markFailed demoProcessing

/-- `demoDone` is reachable: upload, pickup, successful completion. -/
theorem demoDone_reachable : Reachable 3 demoDone :=
  Reachable.step
    (Reachable.step (Reachable.init "c1" "r.pdf" "/storage/candidates/c1")
      (Step.pickup demoUploaded rfl))
    (Step.complete demoProcessing 8 "Interview" "Strong candidate." "resume text" demoSD
      rfl (by norm_num) (by norm_num) (by decide) (by decide))

/-- `demoFailed` is reachable: upload, pickup, non-retryable failure. -/
theorem demoFailed_reachable : Reachable 3 demoFailed :=
  Reachable.step
    (Reachable.step (Reachable.init "c1" "r.pdf" "/storage/candidates/c1")
      (Step.pickup demoUploaded rfl))
    (Step.fail demoProcessing false rfl (Or.inl rfl))

/-! ## Claim theorems -/

/-- C1: For every candidate result, the result fields (fit_score,
recommendation, summary_text, raw_text, structured_data) are fully
populated if and only if status = DONE, with fit_score in the range [1,10];
the result page renders the fit score, recommendation, summary, structured
data and raw text (the `content` view) only on that branch, showing `N/A`
for any null field. -/
theorem result_fields_populated_iff_done (limit : Nat) (c : Candidate)
    (hc : Reachable limit c) :
    (ResultPopulated c ↔ c.status = Status.DONE) ∧
    ScoreInRange c ∧
    ((∃ fs rec summ sd raw, renderResultPage (candidateResult c) =
        ResultView.content fs rec summ sd raw) ↔ c.status = Status.DONE) ∧
    renderFitScore none = ScoreDisplay.na ∧
    renderRecommendation none = TextDisplay.na := by
  obtain ⟨hdone, hnotdone, hrange, _, _⟩ := reachable_invBasic hc
  refine ⟨⟨?_, hdone⟩, hrange, ?_, rfl, rfl⟩
  · intro hp
    by_contra h
    exact (hp.1) (hnotdone h).1
  · cases hst : c.status <;>
      simp [candidateResult, renderResultPage, statusString, hst]

/-- C1 witness: the concrete reachable `DONE` candidate has populated
result fields and its result page shows the content view. -/
theorem result_fields_populated_iff_done_witness :
    ResultPopulated demoDone ∧
    (∃ fs rec summ sd raw, renderResultPage (candidateResult demoDone) =
      ResultView.content fs rec summ sd raw) :=
  ⟨(result_fields_populated_iff_done 3 demoDone demoDone_reachable).1.mpr rfl,
   (result_fields_populated_iff_done 3 demoDone demoDone_reachable).2.2.1.mpr rfl⟩

/-- C2: For every candidate whose status is FAILED, all result fields
remain null and attempt_count ≥ 1; the result page for a FAILED candidate
renders only the fixed `Processing Failed` notice — for any result with
status FAILED, whatever its fields, the rendered view is the same fixed
notice, so no fit score, recommendation, summary, structured data, raw
text, or internal failure cause is exposed. -/
theorem failed_candidate_exposes_no_results (limit : Nat) (c : Candidate)
    (hc : Reachable limit c) (hf : c.status = Status.FAILED) :
    ResultNull c ∧ 1 ≤ c.attempt_count ∧
    renderResultPage (candidateResult c) =
      ResultView.failedNotice "Processing Failed"
        "There was an error processing this candidate\x27s resume." ∧
    (∀ r : CandidateResult, r.status = "FAILED" →
      renderResultPage r =
        ResultView.failedNotice "Processing Failed"
          "There was an error processing this candidate\x27s resume.") := by
  obtain ⟨_, hnotdone, _, _, hnotpend⟩ := reachable_invBasic hc
  refine ⟨hnotdone (by simp [hf]), hnotpend (by simp [hf]), ?_, ?_⟩
  · simp [candidateResult, renderResultPage, statusString, hf]
  · intro r hr
    simp [renderResultPage, hr]

/-- C2 witness: the concrete reachable `FAILED` candidate has null result
fields, at least one attempt, and renders the fixed failure notice. -/
theorem failed_candidate_exposes_no_results_witness :
    ResultNull demoFailed ∧ 1 ≤ demoFailed.attempt_count ∧
    renderResultPage (candidateResult demoFailed) =
      ResultView.failedNotice "Processing Failed"
        "There was an error processing this candidate\x27s resume." := by
  obtain ⟨h1, h2, h3, _⟩ :=
    failed_candidate_exposes_no_results 3 demoFailed demoFailed_reachable rfl
  exact ⟨h1, h2, h3⟩

/-- C3: The re-evaluation trigger is valid only if the candidate is not
currently PROCESSING (it returns `none` exactly on PROCESSING); for every
DONE or FAILED candidate it resets status to PENDING, clears all prior
result fields, preserves the identity and original stored PDF, and
re-enqueues the job. -/
theorem reEvaluate_resets_to_pending (c : Candidate) :
    (reEvaluate c = none ↔ c.status = Status.PROCESSING) ∧
    (c.status = Status.DONE ∨ c.status = Status.FAILED →
      reEvaluate c = some (clearResults c, true) ∧
      (clearResults c).status = Status.PENDING ∧
      ResultNull (clearResults c) ∧
      (clearResults c).stored_path = c.stored_path ∧
      (clearResults c).original_filename = c.original_filename ∧
      (clearResults c).id = c.id) := by
  constructor
  · by_cases h : c.status = Status.PROCESSING <;> simp [reEvaluate, h]
  · intro h
    have hne : c.status ≠ Status.PROCESSING := by
      rcases h with h | h <;> simp [h]
    refine ⟨by simp [reEvaluate, hne], rfl, ?_, rfl, rfl, rfl⟩
    simp [clearResults, ResultNull]

/-- C3 witness: re-evaluating the concrete `DONE` candidate re-enqueues a
cleared `PENDING` record over the same stored PDF. -/
theorem reEvaluate_resets_to_pending_witness :
    reEvaluate demoDone = some (clearResults demoDone, true) ∧
    (clearResults demoDone).status = Status.PENDING ∧
    ResultNull (clearResults demoDone) ∧
    (clearResults demoDone).stored_path = demoDone.stored_path := by
  obtain ⟨h1, h2, h3, h4, _⟩ :=
    (reEvaluate_resets_to_pending demoDone).2 (Or.inl rfl)
  exact ⟨h1, h2, h3, h4⟩

/-- C4: For every candidate, attempt_count never exceeds the configured
maximum retry limit, and a candidate whose every attempt fails with a
retryable failure (an evaluator timeout on each attempt) reaches FAILED
after exactly the configured retry limit, with attempt_count equal to that
limit. -/
theorem attempt_count_bounded_and_timeout_fails (limit : Nat) (hl : 1 ≤ limit)
    (id filename path : String) :
    (∀ c : Candidate, Reachable limit c → c.attempt_count ≤ limit) ∧
    (runJob limit alwaysTimeout (initialCandidate id filename path)).status = Status.FAILED ∧
    (runJob limit alwaysTimeout (initialCandidate id filename path)).attempt_count = limit := by
  refine ⟨fun c hc => reachable_count_le hl hc, ?_, ?_⟩
  · exact (runJobAux_timeout limit limit (initialCandidate id filename path)
      (by simp [initialCandidate]) hl).1
  · exact (runJobAux_timeout limit limit (initialCandidate id filename path)
      (by simp [initialCandidate]) hl).2

/-- C4 witness: with the README's limit of 3 retries, an evaluator timing
out on every attempt leaves the uploaded candidate FAILED with
attempt_count 3. -/
theorem attempt_count_bounded_and_timeout_fails_witness :
    (runJob 3 alwaysTimeout (initialCandidate "c1" "r.pdf" "/storage/candidates/c1")).status
        = Status.FAILED ∧
    (runJob 3 alwaysTimeout (initialCandidate "c1" "r.pdf" "/storage/candidates/c1")).attempt_count
        = 3 :=
  ⟨(attempt_count_bounded_and_timeout_fails 3 (by decide) "c1" "r.pdf"
      "/storage/candidates/c1").2.1,
   (attempt_count_bounded_and_timeout_fails 3 (by decide) "c1" "r.pdf"
      "/storage/candidates/c1").2.2⟩

/-- C5: Every candidate status visible at the external interface is one of
exactly PENDING, PROCESSING, DONE, FAILED; the StatusIndicator component
maps each of these four values to a distinct display label and a distinct
CSS class, and maps any other value to the `status-unknown` class while
displaying the raw value. -/
theorem status_indicator_maps_statuses (s : String) :
    (∀ st : Status, statusString st = "PENDING" ∨ statusString st = "PROCESSING" ∨
      statusString st = "DONE" ∨ statusString st = "FAILED") ∧
    (getStatusLabel "PENDING" = "Pending" ∧ getStatusLabel "PROCESSING" = "Processing" ∧
      getStatusLabel "DONE" = "Done" ∧ getStatusLabel "FAILED" = "Failed") ∧
    (getStatusClass "PENDING" = "status-pending" ∧
      getStatusClass "PROCESSING" = "status-processing" ∧
      getStatusClass "DONE" = "status-done" ∧
      getStatusClass "FAILED" = "status-failed") ∧
    List.Nodup ["Pending", "Processing", "Done", "Failed"] ∧
    List.Nodup ["status-pending", "status-processing", "status-done", "status-failed"] ∧
    (s ≠ "PENDING" → s ≠ "PROCESSING" → s ≠ "DONE" → s ≠ "FAILED" →
      getStatusClass s = "status-unknown" ∧ getStatusLabel s = s) := by
  refine ⟨?_, by decide, by decide, by decide, by decide, ?_⟩
  · intro st; cases st <;> simp [statusString]
  · intro h1 h2 h3 h4
    exact ⟨by simp [getStatusClass, h1, h2, h3, h4],
      by simp [getStatusLabel, h1, h2, h3, h4]⟩

/-- C5 witness: a value outside the four statuses gets the unknown class
and is displayed raw. -/
theorem status_indicator_maps_statuses_witness :
    getStatusClass "RETRYING" = "status-unknown" ∧ getStatusLabel "RETRYING" = "RETRYING" :=
  (status_indicator_maps_statuses "RETRYING").2.2.2.2.2
    (by decide) (by decide) (by decide) (by decide)

/-- C6: The extraction chain tries its strategies in the fixed order
structured-text extraction, secondary text-layer extraction, OCR; each
later strategy's result is used only if every earlier one yielded text
below the acceptability threshold or raised an error, and if all three
strategies fail or yield empty text the chain fails with ExtractionFailed
(never accepting below-threshold text as success). -/
theorem extraction_chain_order_and_failure (threshold : Nat) (r1 r2 r3 : Option String) :
    (acceptableText threshold r1 = true →
      extractChain threshold r1 r2 r3 = Except.ok (r1.getD "", ExtractionMethod.structuredText)) ∧
    (∀ t, extractChain threshold r1 r2 r3 = Except.ok (t, ExtractionMethod.secondaryText) →
      acceptableText threshold r1 = false ∧ acceptableText threshold r2 = true) ∧
    (∀ t, extractChain threshold r1 r2 r3 = Except.ok (t, ExtractionMethod.ocr) →
      acceptableText threshold r1 = false ∧ acceptableText threshold r2 = false ∧
        acceptableText threshold r3 = true) ∧
    (acceptableText threshold r1 = false ∧ acceptableText threshold r2 = false ∧
        acceptableText threshold r3 = false ↔
      extractChain threshold r1 r2 r3 = Except.error ⟨r1, r2, r3⟩) ∧
    (∀ t : String, t.length ≤ threshold → acceptableText threshold (some t) = false) ∧
    extractChain threshold (some "") (some "") (some "") =
      Except.error ⟨some "", some "", some ""⟩ := by
  by_cases h1 : acceptableText threshold r1 <;>
    by_cases h2 : acceptableText threshold r2 <;>
      by_cases h3 : acceptableText threshold r3 <;>
        refine ⟨?_, ?_, ?_, ?_, ?_, ?_⟩ <;>
          simp_all [extractChain, acceptableText]

/-- C6 witness: an acceptable first strategy is taken as structured-text
extraction, and three unacceptable outcomes fail with the per-strategy
reasons. -/
theorem extraction_chain_order_and_failure_witness :
    extractChain 3 (some "resume text") none none =
      Except.ok ("resume text", ExtractionMethod.structuredText) ∧
    extractChain 3 none (some "ab") (some "x") =
      Except.error ⟨none, some "ab", some "x"⟩ :=
  ⟨(extraction_chain_order_and_failure 3 (some "resume text") none none).1 (by decide),
   (extraction_chain_order_and_failure 3 none (some "ab") (some "x")).2.2.2.1.mp
     (by refine ⟨rfl, ?_, ?_⟩ <;> decide)⟩

/-- C7: For every uploaded file accepted by the upload operation, exactly
one candidate record is created with initial status PENDING (no attempts,
null result fields); the upload client posts all selected files under the
`files` multipart field and the upload response lists one candidate entry
per uploaded file, each with status PENDING. -/
theorem upload_creates_pending_candidates (gen : Nat → String) (storeDir : String)
    (files : List FileInfo) :
    (uploadBackend gen storeDir files).1.length = files.length ∧
    (∀ c ∈ (uploadBackend gen storeDir files).1,
      c.status = Status.PENDING ∧ c.attempt_count = 0 ∧ ResultNull c) ∧
    (uploadBackend gen storeDir files).2.candidates.length = files.length ∧
    (∀ e ∈ (uploadBackend gen storeDir files).2.candidates, e.status = "PENDING") ∧
    (uploadFormData files).length = files.length ∧
    (∀ p ∈ uploadFormData files, p.1 = "files") := by
  refine ⟨?_, ?_, ?_, ?_, ?_, ?_⟩
  · simp [uploadBackend]
  · intro c hc
    simp only [uploadBackend, List.mem_map] at hc
    obtain ⟨p, _, hp⟩ := hc
    subst hp
    exact ⟨rfl, rfl, by simp [initialCandidate, ResultNull]⟩
  · simp [uploadBackend]
  · intro e he
    simp only [uploadBackend, List.mem_map] at he
    obtain ⟨c, ⟨p, _, hp⟩, he⟩ := he
    subst hp he
    rfl
  · simp [uploadFormData]
  · intro p hp
    simp only [uploadFormData, List.mem_map] at hp
    obtain ⟨f, _, hf⟩ := hp
    subst hf
    rfl

/-- C7 witness: uploading two concrete files posts both under `files` and
yields two PENDING records and two PENDING response entries. -/
theorem upload_creates_pending_candidates_witness :
    (uploadBackend (fun n => "id-" ++ toString n) "/storage/candidates/"
        [⟨"a.pdf"⟩, ⟨"b.pdf"⟩]).1.length = 2 ∧
    (∀ e ∈ (uploadBackend (fun n => "id-" ++ toString n) "/storage/candidates/"
        [⟨"a.pdf"⟩, ⟨"b.pdf"⟩]).2.candidates, e.status = "PENDING") ∧
    (∀ p ∈ uploadFormData [⟨"a.pdf"⟩, ⟨"b.pdf"⟩], p.1 = "files") := by
  obtain ⟨h1, _, _, h4, _, h6⟩ :=
    upload_creates_pending_candidates (fun n => "id-" ++ toString n)
      "/storage/candidates/" [⟨"a.pdf"⟩, ⟨"b.pdf"⟩]
  exact ⟨h1, h4, h6⟩

/-- C8: For every file selection passed to the upload page's
handleFileChange: if the selection holds more than 10 files the count
error is set and the previously selected file list is left unchanged; if
(at most 10 files) some file's lowercased name does not end in `.pdf` the
type error is set and the file list is left unchanged; otherwise the
selection replaces the file list and the error is cleared. -/
theorem handleFileChange_validation (st : UploadState) (sel : List FileInfo) :
    (sel.length > 10 →
      handleFileChange st sel = { st with error := some "Maximum 10 files allowed" }) ∧
    (sel.length ≤ 10 →
      (∃ f ∈ sel, ¬ (endsWithPdf (toLowerName f.name) = true)) →
        handleFileChange st sel = { st with error := some "Only PDF files are allowed" }) ∧
    (sel.length ≤ 10 →
      (∀ f ∈ sel, endsWithPdf (toLowerName f.name) = true) →
        handleFileChange st sel = { files := sel, error := none }) := by
  refine ⟨?_, ?_, ?_⟩
  · intro h
    simp [handleFileChange, h]
  · intro hlen hbad
    obtain ⟨f, hf, hnot⟩ := hbad
    have hmem : f ∈ sel.filter (fun f => !(endsWithPdf (toLowerName f.name))) := by
      simp [List.mem_filter, hf, hnot]
    have hpos : (sel.filter (fun f => !(endsWithPdf (toLowerName f.name)))).length > 0 :=
      List.length_pos.mpr (List.ne_nil_of_mem hmem)
    simp [handleFileChange, Nat.not_lt.mpr hlen, hpos]
  · intro hlen hgood
    have hnil : sel.filter (fun f => !(endsWithPdf (toLowerName f.name))) = [] := by
      rw [List.filter_eq_nil_iff]
      intro f hf
      simp [hgood f hf]
    simp [handleFileChange, Nat.not_lt.mpr hlen, hnil]

/-- C8 witness: a single valid selection (case-insensitive `.pdf`)
replaces a previous list and clears a previous error; an oversized
selection only sets the count error. -/
theorem handleFileChange_validation_witness :
    handleFileChange { files := [⟨"old.pdf"⟩], error := some "Only PDF files are allowed" }
        [⟨"Resume.PDF"⟩] =
      { files := [⟨"Resume.PDF"⟩], error := none } ∧
    handleFileChange { files := [⟨"old.pdf"⟩], error := none }
        [⟨"1.pdf"⟩, ⟨"2.pdf"⟩, ⟨"3.pdf"⟩, ⟨"4.pdf"⟩, ⟨"5.pdf"⟩, ⟨"6.pdf"⟩,
         ⟨"7.pdf"⟩, ⟨"8.pdf"⟩, ⟨"9.pdf"⟩, ⟨"10.pdf"⟩, ⟨"11.pdf"⟩] =
      { files := [⟨"old.pdf"⟩], error := some "Maximum 10 files allowed" } :=
  ⟨(handleFileChange_validation _ [⟨"Resume.PDF"⟩]).2.2 (by decide) (by decide),
   (handleFileChange_validation _ _).1 (by decide)⟩

/-- C9: On the dashboard, the View button for a candidate is disabled if
and only if that candidate's status is PENDING or PROCESSING; in
particular a FAILED candidate's result view is reachable just as a DONE
candidate's is. -/
theorem view_button_disabled_iff_pending_or_processing (s : String) :
    (viewDisabled s = true ↔ s = "PENDING" ∨ s = "PROCESSING") ∧
    viewDisabled (statusString Status.FAILED) = false ∧
    viewDisabled (statusString Status.DONE) = false := by
  refine ⟨?_, by decide, by decide⟩
  simp [viewDisabled, or_comm]

/-- C9 witness: PENDING disables the button, FAILED leaves it enabled. -/
theorem view_button_disabled_iff_pending_or_processing_witness :
    viewDisabled "PENDING" = true ∧ viewDisabled "FAILED" = false :=
  ⟨(view_button_disabled_iff_pending_or_processing "PENDING").1.mpr (Or.inl rfl),
   (view_button_disabled_iff_pending_or_processing "FAILED").2.1⟩

/-- C10: For every list of candidates whose statuses all lie in
{PENDING, PROCESSING, DONE, FAILED}, the dashboard's getStatusCounts
returns, for each status, exactly the number of candidates in the list
carrying that status, so the four counts sum to the length of the list. -/
theorem getStatusCounts_counts_each_status (cs : List CandidateRow)
    (h : ∀ c ∈ cs, c.status = "PENDING" ∨ c.status = "PROCESSING" ∨
      c.status = "DONE" ∨ c.status = "FAILED") :
    (∀ s, getStatusCounts cs s = cs.countP (fun c => c.status == s)) ∧
    getStatusCounts cs "PENDING" + getStatusCounts cs "PROCESSING" +
      getStatusCounts cs "DONE" + getStatusCounts cs "FAILED" = cs.length := by
  refine ⟨fun s => getStatusCounts_eq_countP cs s, ?_⟩
  rw [getStatusCounts_eq_countP, getStatusCounts_eq_countP,
    getStatusCounts_eq_countP, getStatusCounts_eq_countP]
  exact countP_four_statuses cs h

/-- C10 witness: on a concrete mixed list the four counts are the per-
status tallies and sum to the length. -/
theorem getStatusCounts_counts_each_status_witness :
    getStatusCounts demoRows "DONE" = demoRows.countP (fun c => c.status == "DONE") ∧
    getStatusCounts demoRows "PENDING" + getStatusCounts demoRows "PROCESSING" +
      getStatusCounts demoRows "DONE" + getStatusCounts demoRows "FAILED" =
        demoRows.length :=
  ⟨(getStatusCounts_counts_each_status demoRows (by decide)).1 "DONE",
   (getStatusCounts_counts_each_status demoRows (by decide)).2⟩

end ResumeAI
